import Mathlib

/-!
Verification of the Eloquent text-to-speech extension.

The development shallowly embeds the parts of the code that the verified
properties speak about:

* the error classifier `isAuthenticationError` and the synthesis
  orchestration loop `synthesizeFromSelection` (extension entry point);
* the playback session `HybridAudioPlayer` (play / stop / control-message
  handling / cleanup of the temporary audio file);
* the backend-specific speed transforms (`LocalTTSProvider.speedToRate`,
  the local words-per-minute mapping, `AzureProvider.speedToRate`).

JavaScript strings are modelled by Lean `String` restricted to ASCII
content, `String.prototype.includes` by an explicit substring search, and
`Math.round` by the floor of `x + 1/2` over the rationals.
-/

/-- Model of JavaScript `String.prototype.startsWith` on character lists:
`isPrefixList as bs` is true when `as` is a prefix of `bs`. -/
def isPrefixList : List Char → List Char → Bool
  | [], _ => true
  | _ :: _, [] => false
  | a :: as, b :: bs => a == b && isPrefixList as bs

/-- Model of substring search: `containsList needle hay` is true when
`needle` occurs contiguously in `hay` (JavaScript `hay.includes(needle)`). -/
def containsList (needle : List Char) : List Char → Bool
  | [] => isPrefixList needle []
  | b :: bs => isPrefixList needle (b :: bs) || containsList needle bs

/-- Model of JavaScript `hay.includes(needle)` on `String`. -/
def strIncludes (hay needle : String) : Bool :=
  containsList needle.data hay.data

/-- Model of JavaScript `String.prototype.toLowerCase` for ASCII strings:
lower-case every character. -/
def jsToLower (s : String) : String :=
  ⟨s.data.map Char.toLower⟩

/-- Embedding of `isAuthenticationError` (extension module): lower-case the
message and test it for each auth-failure marker substring. -/
def isAuthenticationError (message : String) : Bool :=
  let normalized := jsToLower message
  strIncludes normalized "401" ||
  strIncludes normalized "403" ||
  strIncludes normalized "unauthorized" ||
  strIncludes normalized "unauthorised" ||
  strIncludes normalized "authentication" ||
  strIncludes normalized "invalid api key" ||
  strIncludes normalized "incorrect api key" ||
  strIncludes normalized "invalid subscription key" ||
  strIncludes normalized "access denied" ||
  false

/-- The documented auth-failure marker phrases (spec section 4.3), in the
lower-case form the classifier matches against. -/
def authMarkerPhrases : List String :=
  ["unauthorized", "unauthorised", "authentication", "invalid api key",
   "incorrect api key", "invalid subscription key", "access denied"]

/-- Every substring the classifier tests for: the HTTP status digit
sequences 401 and 403 together with the marker phrases. The classifier
fires exactly when the lower-cased message contains one of these. -/
def classifierMarkers : List String :=
  "401" :: "403" :: authMarkerPhrases

/-- Lower-casing both lists preserves the prefix relation. -/
theorem isPrefixList_map_toLower (as bs : List Char)
    (h : isPrefixList as bs = true) :
    isPrefixList (as.map Char.toLower) (bs.map Char.toLower) = true := by
  induction as generalizing bs with
  | nil => simp [isPrefixList]
  | cons a as ih =>
    cases bs with
    | nil => simp [isPrefixList] at h
    | cons b bs =>
      simp only [isPrefixList, Bool.and_eq_true, beq_iff_eq] at h ⊢
      exact ⟨by rw [h.1], ih bs h.2⟩

/-- Lower-casing both lists preserves substring occurrence. -/
theorem containsList_map_toLower (needle hay : List Char)
    (h : containsList needle hay = true) :
    containsList (needle.map Char.toLower) (hay.map Char.toLower) = true := by
  induction hay with
  | nil =>
    cases needle with
    | nil => simp [containsList, isPrefixList]
    | cons a as => simp [containsList, isPrefixList] at h
  | cons b bs ih =>
    simp only [containsList, Bool.or_eq_true] at h ⊢
    rcases h with h | h
    · exact Or.inl (isPrefixList_map_toLower _ _ h)
    · exact Or.inr (ih h)

/-- Substring occurrence survives the normalisation step of the classifier:
if the raw message contains `v`, the lower-cased message contains
`jsToLower v`. -/
theorem strIncludes_jsToLower (m v : String) (h : strIncludes m v = true) :
    strIncludes (jsToLower m) (jsToLower v) = true :=
  containsList_map_toLower v.data m.data h

/-! ## Synthesis orchestration (extension module, `synthesizeFromSelection`) -/

/-- The closed set of provider identifiers (`TTSProviderType` in config). -/
inductive TTSProviderType
  | openai
  | elevenlabs
  | azure
  | local
deriving DecidableEq, Repr

/-- Outcome of one network synthesis call: either audio bytes (abstracted to
a `Nat` tag) or a thrown error carrying a message. -/
inductive SynthOutcome
  | success (audio : Nat)
  | failure (message : String)
deriving DecidableEq, Repr

/-- Environment of one orchestrator run, after the pre-loop validation
(selection present, length bound respected, initial key resolved):

* `providerType` — the configured provider;
* `cancelRequested n` — whether the cancellation token of attempt `n` is
  already set at the pre-dispatch check;
* `synthesize n` — the outcome of the network synthesis call of attempt `n`;
* `updateKeyChoice` — whether the user picks the Update Key action in the
  auth-retry dialog;
* `enteredKey` — what `promptForApiKey` returns in the retry path
  (`none` models dismissal, and the empty string is falsy in JavaScript). -/
structure OrchEnv where
  providerType : TTSProviderType
  cancelRequested : Nat → Bool
  synthesize : Nat → SynthOutcome
  updateKeyChoice : Bool
  enteredKey : Option String

/-- JavaScript truthiness of the `entered` key: `undefined` and the empty
string both abort the retry (`if (!entered) return undefined`). -/
def keyEntered : Option String → Bool
  | none => false
  | some s => !(s == "")

/-- Observable outcome of one orchestrator run:

* `audio` — the returned buffer (`none` models `undefined`);
* `networkCalls` — how many times `provider.synthesize` was dispatched;
* `errorShown` — the terminal error message the user sees, if any;
* `authRetryPrompted` — whether the new-key dialog was shown. -/
structure OrchResult where
  audio : Option Nat
  networkCalls : Nat
  errorShown : Option String
  authRetryPrompted : Bool
deriving DecidableEq, Repr

/-- Embedding of the body of the `for (let attempt = 0; attempt < 2; ...)`
loop of `synthesizeFromSelection`. The first argument counts the remaining
loop iterations, `attempt` is the loop index, `calls` and `prompted`
accumulate the observable effects. Each iteration checks the cancellation
token before dispatch, dispatches the synthesis call, swallows the exact
message Cancelled, offers the one-shot new-key dialog on a first-attempt
auth-classified failure for credentialed providers, and otherwise surfaces
the message and stops. -/
def synthAttempts (env : OrchEnv) : Nat → Nat → Nat → Bool → OrchResult
  | 0, _, calls, prompted => ⟨none, calls, none, prompted⟩
  | rem + 1, attempt, calls, prompted =>
    if env.cancelRequested attempt then
      ⟨none, calls, none, prompted⟩
    else
      match env.synthesize attempt with
      | .success b => ⟨some b, calls + 1, none, prompted⟩
      | .failure msg =>
        if msg == "Cancelled" then
          ⟨none, calls + 1, none, prompted⟩
        else
          let shouldRetryAuth :=
            (env.providerType != .local) && (attempt == 0) &&
              isAuthenticationError msg
          if shouldRetryAuth then
            if env.updateKeyChoice then
              if keyEntered env.enteredKey then
                synthAttempts env rem (attempt + 1) (calls + 1) true
              else
                ⟨none, calls + 1, none, true⟩
            else
              ⟨none, calls + 1, some ("Eloquent: " ++ msg), true⟩
          else
            ⟨none, calls + 1, some ("Eloquent: " ++ msg), prompted⟩

/-- Embedding of `synthesizeFromSelection` from the point where the attempt
loop is entered: attempt budget 2, no calls made yet. -/
def synthesizeFromSelection (env : OrchEnv) : OrchResult :=
  synthAttempts env 2 0 0 false

/-- The auth-retry path of the orchestrator: the first attempt is
dispatched and fails with a non-Cancelled message matching the
authentication-failure signature, the provider requires a credential, the
user accepts the dialog and supplies a non-empty key, and the retry
attempt is not itself cancelled before dispatch. -/
def authRetryTaken (env : OrchEnv) : Prop :=
  env.cancelRequested 0 = false ∧
  (∃ msg, env.synthesize 0 = .failure msg ∧ msg ≠ "Cancelled" ∧
    isAuthenticationError msg = true) ∧
  env.providerType ≠ .local ∧
  env.updateKeyChoice = true ∧
  keyEntered env.enteredKey = true ∧
  env.cancelRequested 1 = false

/-! ## Playback session (`src/player/hybrid.ts`, `HybridAudioPlayer`) -/

namespace HybridAudioPlayer

/-- Mutable fields of `HybridAudioPlayer`: whether the webview panel
exists, the stored `onDidStopCallback` (callbacks are identified by a
`Nat` tag, `none` models `undefined`), and the `tempFile` path
(`none` models `null`). -/
structure PlayerState where
  panel : Bool
  onDidStopCallback : Option Nat
  tempFile : Option String
deriving DecidableEq, Repr

/-- A fresh `HybridAudioPlayer` as built by the constructor: no panel, no
callback, no temp file. -/
def initialPlayer : PlayerState :=
  { panel := false, onDidStopCallback := none, tempFile := none }

/-- The platform temp directory, modelled as the list of temp-file paths
that currently exist on disk. -/
abbrev FileSys := List String

/-- Embedding of the private `cleanup` method: if a temp file is
referenced and exists on disk, delete it and null the reference;
otherwise leave both the state and the disk untouched (in particular the
reference is only nulled inside the existence check). -/
def cleanup (s : PlayerState) (fs : FileSys) : PlayerState × FileSys :=
  match s.tempFile with
  | some f =>
    if f ∈ fs then ({ s with tempFile := none }, List.erase fs f)
    else (s, fs)
  | none => (s, fs)

/-- Result of one `play` call: whether the temp-file write succeeded (a
failed write throws out of `play`), the player state and disk contents
afterwards. -/
structure PlayOutcome where
  success : Bool
  state : PlayerState
  fs : FileSys
deriving DecidableEq, Repr

/-- Embedding of `play(audioData, onStop)`. In source order: store the new
callback, run `cleanup`, assign the fresh uniquely-named `tempFile` path,
then write the bytes (`writeOk` is whether `fs.writeFileSync` succeeds; on
failure the exception propagates out of `play` before the panel or its
HTML are touched). On success the panel is created if absent (or reused)
and the new HTML is installed. The audio bytes themselves do not influence
session state and are not modelled. -/
def play (s : PlayerState) (fs : FileSys) (onStop : Option Nat)
    (newPath : String) (writeOk : Bool) : PlayOutcome :=
  let s1 := { s with onDidStopCallback := onStop }
  let cleaned := cleanup s1 fs
  let s2 := { cleaned.1 with tempFile := some newPath }
  if writeOk then
    { success := true
      state := { s2 with panel := true }
      fs := newPath :: cleaned.2 }
  else
    { success := false, state := s2, fs := cleaned.2 }

/-- Result of a control operation: the state and disk afterwards, the
callbacks invoked (in order), and the control messages posted to the
webview. -/
structure CtlOutcome where
  state : PlayerState
  fs : FileSys
  invoked : List Nat
  posted : List String
deriving DecidableEq, Repr

/-- Embedding of `stop()`: post the stop control message when the panel
exists, then run `cleanup`. Nothing else happens; in particular the
stored callback is not invoked by `stop` itself. -/
def stop (s : PlayerState) (fs : FileSys) : CtlOutcome :=
  let posted := if s.panel then ["stop"] else []
  let cleaned := cleanup s fs
  { state := cleaned.1, fs := cleaned.2, invoked := [], posted := posted }

/-- Embedding of the `onDidReceiveMessage` handler registered in `play`:
on `ended` or `stopped` invoke the stored callback (if any); on `ready`
post the play control message to the panel (if it still exists); on
`download` copy the temp file out (no session-state effect); anything
else is ignored. The handler never touches `tempFile` or the disk. -/
def handleMessage (s : PlayerState) (fs : FileSys) (cmd : String) :
    CtlOutcome :=
  if cmd == "ended" || cmd == "stopped" then
    { state := s, fs := fs
      invoked := match s.onDidStopCallback with | some c => [c] | none => []
      posted := [] }
  else if cmd == "ready" then
    { state := s, fs := fs, invoked := []
      posted := if s.panel then ["play"] else [] }
  else
    { state := s, fs := fs, invoked := [], posted := [] }

end HybridAudioPlayer

/-! ## Backend speed transforms -/

/-- Model of JavaScript `Math.round`: round half toward positive
infinity, i.e. the floor of `x + 1/2`. Speeds are modelled as rationals
(the settings surface exposes the scale 0.25 - 4.0 in steps that are
exact in both binary floating point and the rationals). -/
def jsRound (q : ℚ) : ℤ := ⌊q + 1 / 2⌋

namespace LocalTTSProvider

/-- Embedding of `LocalTTSProvider.speedToRate`: map the normalised speed
to the SAPI rate in -10..10, with slope 10 below normal speed and slope
3.33 above it. -/
def speedToRate (speed : ℚ) : ℤ :=
  if speed ≤ 1 then jsRound ((speed - 1) * 10)
  else jsRound ((speed - 1) * (333 / 100))

/-- Embedding of the words-per-minute mapping used by the macOS path
(`synthesizeMac`, `Math.round(175 * options.speed)`) and identically by
the Linux path (`synthesizeLinux`). -/
def wpmRate (speed : ℚ) : ℤ := jsRound (175 * speed)

end LocalTTSProvider

namespace AzureProvider

/-- The rounded prosody percentage of `AzureProvider.speedToRate`. -/
def percentOf (speed : ℚ) : ℤ := jsRound ((speed - 1) * 100)

/-- Embedding of `AzureProvider.speedToRate`: format the rounded
percentage with an explicit sign, e.g. speed 2 maps to the SSML prosody
rate string of plus one hundred percent. -/
def speedToRate (speed : ℚ) : String :=
  let percent := percentOf speed
  if percent ≥ 0 then "+" ++ toString percent ++ "%"
  else toString percent ++ "%"

end AzureProvider

/-- Rounding is monotone: the JavaScript round of a smaller rational is
no larger. -/
theorem jsRound_mono {q r : ℚ} (h : q ≤ r) : jsRound q ≤ jsRound r :=
  Int.floor_le_floor (by linarith)

/-! ## Orchestrator characterisation -/

/-- On the retry attempt (index 1, one iteration left) the new-key dialog
can no longer be offered: any failure other than the Cancelled message is
terminal and surfaced. -/
theorem synthAttempts_one (env : OrchEnv) (calls : Nat) (prompted : Bool) :
    synthAttempts env 1 1 calls prompted =
      if env.cancelRequested 1 then ⟨none, calls, none, prompted⟩
      else
        match env.synthesize 1 with
        | .success b => ⟨some b, calls + 1, none, prompted⟩
        | .failure msg =>
          if msg == "Cancelled" then ⟨none, calls + 1, none, prompted⟩
          else ⟨none, calls + 1, some ("Eloquent: " ++ msg), prompted⟩ := by
  cases hc : env.cancelRequested 1 with
  | true => simp [synthAttempts, hc]
  | false =>
    cases hs : env.synthesize 1 with
    | success b => simp [synthAttempts, hc, hs]
    | failure msg =>
      by_cases hm : msg = "Cancelled"
      · simp [synthAttempts, hc, hs, hm]
      · simp [synthAttempts, hc, hs, hm]

/-- Full behaviour of one orchestrator run, by cases on the environment. -/
theorem synthesizeFromSelection_eq (env : OrchEnv) :
    synthesizeFromSelection env =
      if env.cancelRequested 0 then ⟨none, 0, none, false⟩
      else
        match env.synthesize 0 with
        | .success b => ⟨some b, 1, none, false⟩
        | .failure msg =>
          if msg == "Cancelled" then ⟨none, 1, none, false⟩
          else if (env.providerType != .local) && isAuthenticationError msg then
            if env.updateKeyChoice then
              if keyEntered env.enteredKey then
                (if env.cancelRequested 1 then ⟨none, 1, none, true⟩
                 else
                   match env.synthesize 1 with
                   | .success b => ⟨some b, 2, none, true⟩
                   | .failure msg2 =>
                     if msg2 == "Cancelled" then ⟨none, 2, none, true⟩
                     else ⟨none, 2, some ("Eloquent: " ++ msg2), true⟩)
              else ⟨none, 1, none, true⟩
            else ⟨none, 1, some ("Eloquent: " ++ msg), true⟩
          else ⟨none, 1, some ("Eloquent: " ++ msg), false⟩ := by
  cases hc : env.cancelRequested 0 with
  | true => simp [synthesizeFromSelection, synthAttempts, hc]
  | false =>
    cases hs : env.synthesize 0 with
    | success b => simp [synthesizeFromSelection, synthAttempts, hc, hs]
    | failure msg =>
      by_cases hm : msg = "Cancelled"
      · simp [synthesizeFromSelection, synthAttempts, hc, hs, hm]
      · cases ha : (env.providerType != .local) && isAuthenticationError msg with
        | false => simp [synthesizeFromSelection, synthAttempts, hc, hs, hm, ha]
        | true =>
          cases hu : env.updateKeyChoice with
          | false => simp [synthesizeFromSelection, synthAttempts, hc, hs, hm, ha, hu]
          | true =>
            cases hk : keyEntered env.enteredKey with
            | false => simp [synthesizeFromSelection, synthAttempts, hc, hs, hm, ha, hu, hk]
            | true =>
              simp [synthesizeFromSelection, synthAttempts, hc, hs, hm, ha, hu, hk,
                synthAttempts_one]

/-! ## Claim theorems -/

/-- Containing any one of the documented marker phrases after
normalisation makes the classifier fire. -/
theorem isAuthenticationError_of_marker (m p : String)
    (hp : p ∈ authMarkerPhrases)
    (h : strIncludes (jsToLower m) p = true) :
    isAuthenticationError m = true := by
  fin_cases hp <;> simp [isAuthenticationError, h]

/-- C2: for each documented auth-failure marker phrase, the classifier
`isAuthenticationError` returns true on any error message containing that
phrase in any letter case (a fragment `v` normalising to the phrase), it
returns true on messages indicating HTTP 401 or 403 (containing the
digits 401 or 403), and it returns false on a generic 500 message and on
a generic timeout message. -/
theorem c2_isAuthenticationError_classification :
    (∀ m v p : String, p ∈ authMarkerPhrases → jsToLower v = p →
      strIncludes m v = true → isAuthenticationError m = true) ∧
    (∀ m : String,
      strIncludes m "401" = true ∨ strIncludes m "403" = true →
      isAuthenticationError m = true) ∧
    isAuthenticationError "API error: 500" = false ∧
    isAuthenticationError "connect ETIMEDOUT 104.18.6.192:443" = false := by
  refine ⟨?_, ?_, by decide, by decide⟩
  · intro m v p hp hlow hinc
    have h2 := strIncludes_jsToLower m v hinc
    rw [hlow] at h2
    exact isAuthenticationError_of_marker m p hp h2
  · intro m h
    rcases h with h | h
    · have h2 := strIncludes_jsToLower m "401" h
      have h3 : jsToLower "401" = "401" := by decide
      rw [h3] at h2
      simp [isAuthenticationError, h2]
    · have h2 := strIncludes_jsToLower m "403" h
      have h3 : jsToLower "403" = "403" := by decide
      rw [h3] at h2
      simp [isAuthenticationError, h2]

/-- Witness for C2: the message Invalid API Key provided (mixed case)
contains the variant Invalid API Key of the marker phrase and is
classified as an authentication failure. -/
theorem c2_witness :
    isAuthenticationError "Error: Invalid API Key provided" = true :=
  c2_isAuthenticationError_classification.1
    "Error: Invalid API Key provided" "Invalid API Key" "invalid api key"
    (by decide) (by decide) (by decide)

/-- If the first attempt fails with a message the classifier rejects, the
new-key dialog is never shown. -/
theorem no_reprompt_of_not_auth (env : OrchEnv) (msg : String)
    (hna : isAuthenticationError msg = false)
    (h0 : env.synthesize 0 = .failure msg) :
    (synthesizeFromSelection env).authRetryPrompted = false := by
  rw [synthesizeFromSelection_eq]
  cases hc : env.cancelRequested 0 with
  | true => simp
  | false =>
    by_cases hm : msg = "Cancelled"
    · simp [h0, hm]
    · simp [h0, hm, hna]

/-- The classifier fires exactly on messages whose lower-cased text
contains one of the tested substrings. -/
theorem isAuthenticationError_iff (m : String) :
    isAuthenticationError m = true ↔
      ∃ p ∈ classifierMarkers, strIncludes (jsToLower m) p = true := by
  constructor
  · intro h
    simp only [isAuthenticationError, Bool.or_eq_true] at h
    rcases h with (((((((((h | h) | h) | h) | h) | h) | h) | h) | h) | h)
    · exact ⟨"401", by decide, h⟩
    · exact ⟨"403", by decide, h⟩
    · exact ⟨"unauthorized", by decide, h⟩
    · exact ⟨"unauthorised", by decide, h⟩
    · exact ⟨"authentication", by decide, h⟩
    · exact ⟨"invalid api key", by decide, h⟩
    · exact ⟨"incorrect api key", by decide, h⟩
    · exact ⟨"invalid subscription key", by decide, h⟩
    · exact ⟨"access denied", by decide, h⟩
    · cases h
  · rintro ⟨p, hp, hinc⟩
    fin_cases hp <;> simp [isAuthenticationError, hinc]

/-- Counterexample to C3 as stated: transient failure messages produced
by the code's own pass-through formatting can match the substring
heuristic. A connection-refused message whose address ends in port 4013
contains the digits 401, and an Azure non-auth error whose server body
mentions the authentication service contains a marker phrase; both are
classified as auth failures, and the first one, arising as a first-attempt
failure on a credentialed provider, makes the orchestrator show the
credential re-prompt. -/
theorem c3_counterexample :
    isAuthenticationError "connect ECONNREFUSED 127.0.0.1:4013" = true ∧
    isAuthenticationError
      "Azure API error: 503 - authentication service temporarily unavailable"
        = true ∧
    (synthesizeFromSelection
      ⟨.openai, fun _ => false,
        fun _ => .failure "connect ECONNREFUSED 127.0.0.1:4013",
        false, none⟩).authRetryPrompted = true := by
  decide

/-- C3 amended: a transient network or quota failure message avoids the
credential re-prompt exactly when its text is free of the classifier's
marker substrings: if the lower-cased message contains none of the nine
tested substrings, the classification returns false and a run whose
first attempt fails with that message never offers the re-prompt; and
conversely the classification accepts a message exactly when some tested
substring occurs in it, so a transient message whose pass-through body or
address happens to contain one (the word authentication, the digits 401)
does trigger the re-prompt. -/
theorem c3_no_marker_no_reprompt :
    (∀ msg : String,
      (∀ p ∈ classifierMarkers, strIncludes (jsToLower msg) p = false) →
      isAuthenticationError msg = false ∧
      ∀ env : OrchEnv, env.synthesize 0 = .failure msg →
        (synthesizeFromSelection env).authRetryPrompted = false) ∧
    (∀ msg : String, isAuthenticationError msg = true ↔
      ∃ p ∈ classifierMarkers, strIncludes (jsToLower msg) p = true) := by
  refine ⟨?_, isAuthenticationError_iff⟩
  intro msg h
  have hna : isAuthenticationError msg = false := by
    cases hb : isAuthenticationError msg with
    | false => rfl
    | true =>
      obtain ⟨p, hp, hinc⟩ := (isAuthenticationError_iff msg).mp hb
      rw [h p hp] at hinc
      cases hinc
  exact ⟨hna, fun env h0 => no_reprompt_of_not_auth env msg hna h0⟩

/-- Witness for C3: the plain 500 fallback message contains no marker
substring, is rejected by the classifier, and a run failing with it shows
no re-prompt dialog. -/
theorem c3_witness :
    isAuthenticationError "API error: 500" = false ∧
    (synthesizeFromSelection
      ⟨.openai, fun _ => false, fun _ => .failure "API error: 500",
        true, some "sk-new"⟩).authRetryPrompted = false :=
  ⟨(c3_no_marker_no_reprompt.1 "API error: 500" (by decide)).1,
   (c3_no_marker_no_reprompt.1 "API error: 500" (by decide)).2
     ⟨.openai, fun _ => false, fun _ => .failure "API error: 500",
       true, some "sk-new"⟩ rfl⟩

/-- C1: every orchestrator run issues at most one network synthesis call
unless the auth-retry path is taken (first attempt dispatched and failed
with the authentication-failure signature, credentialed provider, user
supplies a new key, retry not cancelled), in which case exactly two calls
are made; a non-auth first failure, and any second failure, is terminal
and surfaced with the underlying message with no further retry. -/
theorem c1_call_budget (env : OrchEnv) :
    (synthesizeFromSelection env).networkCalls ≤ 2 ∧
    (¬ authRetryTaken env → (synthesizeFromSelection env).networkCalls ≤ 1) ∧
    (authRetryTaken env → (synthesizeFromSelection env).networkCalls = 2) ∧
    (∀ msg : String, env.cancelRequested 0 = false →
      env.synthesize 0 = .failure msg → msg ≠ "Cancelled" →
      isAuthenticationError msg = false →
      synthesizeFromSelection env = ⟨none, 1, some ("Eloquent: " ++ msg), false⟩) ∧
    (∀ msg2 : String, authRetryTaken env →
      env.synthesize 1 = .failure msg2 → msg2 ≠ "Cancelled" →
      synthesizeFromSelection env = ⟨none, 2, some ("Eloquent: " ++ msg2), true⟩) := by
  rw [synthesizeFromSelection_eq]
  refine ⟨?_, ?_, ?_, ?_, ?_⟩
  · cases hc : env.cancelRequested 0 with
    | true => simp
    | false =>
      cases hs : env.synthesize 0 with
      | success b => simp
      | failure msg =>
        by_cases hm : msg = "Cancelled"
        · simp [hm]
        · cases ha : (env.providerType != .local) && isAuthenticationError msg with
          | false => simp [hm, ha]
          | true =>
            cases hu : env.updateKeyChoice with
            | false => simp [hm, ha, hu]
            | true =>
              cases hk : keyEntered env.enteredKey with
              | false => simp [hm, ha, hu, hk]
              | true =>
                cases hc1 : env.cancelRequested 1 with
                | true => simp [hm, ha, hu, hk, hc1]
                | false =>
                  cases hs1 : env.synthesize 1 with
                  | success b => simp [hm, ha, hu, hk, hc1, hs1]
                  | failure msg2 =>
                    by_cases hm2 : msg2 = "Cancelled" <;>
                      simp [hm, ha, hu, hk, hc1, hs1, hm2]
  · intro hnr
    cases hc : env.cancelRequested 0 with
    | true => simp
    | false =>
      cases hs : env.synthesize 0 with
      | success b => simp
      | failure msg =>
        by_cases hm : msg = "Cancelled"
        · simp [hm]
        · cases ha : (env.providerType != .local) && isAuthenticationError msg with
          | false => simp [hm, ha]
          | true =>
            cases hu : env.updateKeyChoice with
            | false => simp [hm, ha, hu]
            | true =>
              cases hk : keyEntered env.enteredKey with
              | false => simp [hm, ha, hu, hk]
              | true =>
                cases hc1 : env.cancelRequested 1 with
                | true => simp [hm, ha, hu, hk, hc1]
                | false =>
                  exfalso
                  apply hnr
                  rw [Bool.and_eq_true, bne_iff_ne] at ha
                  exact ⟨hc, ⟨msg, hs, hm, ha.2⟩, ha.1, hu, hk, hc1⟩
  · intro hr
    obtain ⟨hc, ⟨msg, hs, hm, hauth⟩, hl, hu, hk, hc1⟩ := hr
    cases hs1 : env.synthesize 1 with
    | success b => simp [hc, hs, hm, hauth, hl, hu, hk, hc1, hs1]
    | failure msg2 =>
      by_cases hm2 : msg2 = "Cancelled" <;>
        simp [hc, hs, hm, hauth, hl, hu, hk, hc1, hs1, hm2]
  · intro msg hc hs hm hna
    simp [hc, hs, hm, hna]
  · intro msg2 hr hs1 hm2
    obtain ⟨hc, ⟨msg, hs, hm, hauth⟩, hl, hu, hk, hc1⟩ := hr
    simp [hc, hs, hm, hauth, hl, hu, hk, hc1, hs1, hm2]

/-- Witness for C1: a run whose first attempt fails with Unauthorized and
whose user supplies a fresh key makes exactly two network calls. -/
theorem c1_witness :
    (synthesizeFromSelection
      ⟨.openai, fun _ => false,
        fun n => if n = 0 then .failure "Unauthorized" else .success 7,
        true, some "sk-new"⟩).networkCalls = 2 :=
  (c1_call_budget
    ⟨.openai, fun _ => false,
      fun n => if n = 0 then .failure "Unauthorized" else .success 7,
      true, some "sk-new"⟩).2.2.1
    ⟨rfl, ⟨"Unauthorized", rfl, by decide, by decide⟩, by decide, rfl, rfl, rfl⟩

/-- C4: a cancellation requested before the pre-dispatch check makes the
orchestrator return the cancelled outcome with zero network calls, no
surfaced error message and no retry dialog. -/
theorem c4_cancel_before_dispatch (env : OrchEnv)
    (h : env.cancelRequested 0 = true) :
    synthesizeFromSelection env = ⟨none, 0, none, false⟩ := by
  rw [synthesizeFromSelection_eq]
  simp [h]

/-- Witness for C4: a concrete run with the token already set issues no
network call and surfaces nothing. -/
theorem c4_witness :
    synthesizeFromSelection
      ⟨.azure, fun _ => true, fun _ => .success 3, false, none⟩ =
      ⟨none, 0, none, false⟩ :=
  c4_cancel_before_dispatch
    ⟨.azure, fun _ => true, fun _ => .success 3, false, none⟩ rfl

/-- C10: a synthesis failure whose message is exactly Cancelled is treated
as a user cancellation regardless of the token: the orchestrator returns
no audio, surfaces no error and offers no auth retry, even when
cancellation was never requested; the same swallowing happens on the
retry attempt. -/
theorem c10_cancelled_message_swallowed (env : OrchEnv) :
    (env.cancelRequested 0 = false →
      env.synthesize 0 = .failure "Cancelled" →
      synthesizeFromSelection env = ⟨none, 1, none, false⟩) ∧
    (authRetryTaken env → env.synthesize 1 = .failure "Cancelled" →
      synthesizeFromSelection env = ⟨none, 2, none, true⟩) := by
  constructor
  · intro hc hs
    rw [synthesizeFromSelection_eq]
    simp [hc, hs]
  · intro hr hs1
    obtain ⟨hc, ⟨msg, hs, hm, hauth⟩, hl, hu, hk, hc1⟩ := hr
    rw [synthesizeFromSelection_eq]
    simp [hc, hs, hm, hauth, hl, hu, hk, hc1, hs1]

/-- Witness for C10: a backend failure carrying exactly the message
Cancelled, with no cancellation requested, is silently swallowed. -/
theorem c10_witness :
    synthesizeFromSelection
      ⟨.elevenlabs, fun _ => false, fun _ => .failure "Cancelled",
        true, some "k"⟩ = ⟨none, 1, none, false⟩ :=
  (c10_cancelled_message_swallowed
    ⟨.elevenlabs, fun _ => false, fun _ => .failure "Cancelled",
      true, some "k"⟩).1 rfl rfl

open HybridAudioPlayer in
/-- C5: calling play twice in succession leaves exactly one temp audio
file on disk and exactly one stored onStop callback: the second play
replaces the callback and deletes the previous temp file before the new
temp resource is created, so at no point after the second play do two
temp resources coexist. -/
theorem c5_play_twice_single_resource (cb1 cb2 : Nat) (p1 p2 : String)
    (hne : p1 ≠ p2) :
    (HybridAudioPlayer.play initialPlayer [] (some cb1) p1 true).fs = [p1] ∧
    (HybridAudioPlayer.play initialPlayer [] (some cb1) p1 true).state =
      ⟨true, some cb1, some p1⟩ ∧
    (HybridAudioPlayer.play
      (HybridAudioPlayer.play initialPlayer [] (some cb1) p1 true).state
      (HybridAudioPlayer.play initialPlayer [] (some cb1) p1 true).fs
      (some cb2) p2 true).fs = [p2] ∧
    (HybridAudioPlayer.play
      (HybridAudioPlayer.play initialPlayer [] (some cb1) p1 true).state
      (HybridAudioPlayer.play initialPlayer [] (some cb1) p1 true).fs
      (some cb2) p2 true).state = ⟨true, some cb2, some p2⟩ := by
  simp [HybridAudioPlayer.play, cleanup, initialPlayer]

open HybridAudioPlayer in
/-- Witness for C5: two concrete successive plays end with only the second
temp file on disk and only the second callback stored. -/
theorem c5_witness :
    (HybridAudioPlayer.play
      (HybridAudioPlayer.play initialPlayer [] (some 0) "a" true).state
      (HybridAudioPlayer.play initialPlayer [] (some 0) "a" true).fs
      (some 1) "b" true).fs = ["b"] ∧
    (HybridAudioPlayer.play
      (HybridAudioPlayer.play initialPlayer [] (some 0) "a" true).state
      (HybridAudioPlayer.play initialPlayer [] (some 0) "a" true).fs
      (some 1) "b" true).state = ⟨true, some 1, some "b"⟩ :=
  ⟨(c5_play_twice_single_resource 0 1 "a" "b" (by decide)).2.2.1,
   (c5_play_twice_single_resource 0 1 "a" "b" (by decide)).2.2.2⟩

/-- Counterexample to C6 as stated: with an active session (panel open,
temp file on disk) and a registered onStop callback, stop posts the stop
control message and deletes the temp file, yet invokes no callback at
all; the stored callback is untouched. -/
theorem c6_counterexample :
    (HybridAudioPlayer.stop ⟨true, some 0, some "t"⟩ ["t"]).invoked = [] ∧
    (HybridAudioPlayer.stop ⟨true, some 0, some "t"⟩ ["t"]).posted = ["stop"] ∧
    (HybridAudioPlayer.stop ⟨true, some 0, some "t"⟩ ["t"]).fs = [] ∧
    (HybridAudioPlayer.stop ⟨true, some 0, some "t"⟩ ["t"]).state =
      ⟨true, some 0, none⟩ := by
  decide

open HybridAudioPlayer in
/-- C6 amended: stop sends the stop control message exactly when a panel
exists and then releases the temp resource when one exists on disk, but it
does not itself invoke the onStop callback (the callback only runs when
the rendering surface later reports stopped); stop never throws, is
idempotent on the session state and the disk, and on an idle session it
is a complete no-op. -/
theorem c6_stop_amended (s : PlayerState) (fs : FileSys) :
    (HybridAudioPlayer.stop s fs).posted =
      (if s.panel then ["stop"] else []) ∧
    (HybridAudioPlayer.stop s fs).invoked = [] ∧
    (∀ f, s.tempFile = some f → f ∈ fs →
      (HybridAudioPlayer.stop s fs).fs = fs.erase f ∧
      (HybridAudioPlayer.stop s fs).state.tempFile = none) ∧
    (HybridAudioPlayer.stop (HybridAudioPlayer.stop s fs).state
      (HybridAudioPlayer.stop s fs).fs).state =
        (HybridAudioPlayer.stop s fs).state ∧
    (HybridAudioPlayer.stop (HybridAudioPlayer.stop s fs).state
      (HybridAudioPlayer.stop s fs).fs).fs =
        (HybridAudioPlayer.stop s fs).fs ∧
    (HybridAudioPlayer.stop initialPlayer []).state = initialPlayer ∧
    (HybridAudioPlayer.stop initialPlayer []).fs = ([] : FileSys) := by
  refine ⟨rfl, rfl, ?_, ?_, ?_, by decide, by decide⟩
  · intro f hf hmem
    simp [HybridAudioPlayer.stop, cleanup, hf, hmem]
  · cases hs : s.tempFile with
    | none => simp [HybridAudioPlayer.stop, cleanup, hs]
    | some f =>
      by_cases hmem : f ∈ fs
      · simp [HybridAudioPlayer.stop, cleanup, hs, hmem]
      · simp [HybridAudioPlayer.stop, cleanup, hs, hmem]
  · cases hs : s.tempFile with
    | none => simp [HybridAudioPlayer.stop, cleanup, hs]
    | some f =>
      by_cases hmem : f ∈ fs
      · simp [HybridAudioPlayer.stop, cleanup, hs, hmem]
      · simp [HybridAudioPlayer.stop, cleanup, hs, hmem]

open HybridAudioPlayer in
/-- Witness for C6: stopping a concrete active session deletes its temp
file, and stopping an idle session changes nothing. -/
theorem c6_witness :
    (HybridAudioPlayer.stop ⟨true, some 3, some "u"⟩ ["u"]).fs =
      (["u"] : FileSys).erase "u" ∧
    (HybridAudioPlayer.stop ⟨true, some 3, some "u"⟩ ["u"]).state.tempFile =
      none :=
  (c6_stop_amended ⟨true, some 3, some "u"⟩ ["u"]).2.2.1 "u" rfl
    (by decide)

/-- Counterexample to C7 as stated: when the rendering surface reports
ended for a session whose temp file is on disk, the handler invokes the
callback once but releases nothing: the temp file is still on disk and
still referenced, and the session state is unchanged rather than reset
to idle. -/
theorem c7_counterexample :
    (HybridAudioPlayer.handleMessage ⟨true, some 0, some "t"⟩ ["t"]
      "ended").invoked = [0] ∧
    (HybridAudioPlayer.handleMessage ⟨true, some 0, some "t"⟩ ["t"]
      "ended").fs = ["t"] ∧
    (HybridAudioPlayer.handleMessage ⟨true, some 0, some "t"⟩ ["t"]
      "ended").state = ⟨true, some 0, some "t"⟩ := by
  decide

open HybridAudioPlayer in
/-- C7 amended: on an ended or stopped control message the session
invokes the stored onStop callback exactly once and posts nothing, but it
does not release the temp resource and does not change any session state;
the temp file stays on disk (and stays referenced) until the next play,
stop or disposal. -/
theorem c7_ended_stopped_amended (s : PlayerState) (fs : FileSys)
    (cmd : String) (c : Nat) (hcmd : cmd = "ended" ∨ cmd = "stopped")
    (hcb : s.onDidStopCallback = some c) :
    HybridAudioPlayer.handleMessage s fs cmd =
      ⟨s, fs, [c], []⟩ := by
  rcases hcmd with h | h <;> subst h <;>
    simp [HybridAudioPlayer.handleMessage, hcb]

open HybridAudioPlayer in
/-- Witness for C7: a concrete ended message invokes the registered
callback once and leaves the state and disk untouched. -/
theorem c7_witness :
    HybridAudioPlayer.handleMessage ⟨true, some 5, some "v"⟩ ["v"]
      "ended" = ⟨⟨true, some 5, some "v"⟩, ["v"], [5], []⟩ :=
  c7_ended_stopped_amended ⟨true, some 5, some "v"⟩ ["v"] "ended" 5
    (Or.inl rfl) rfl

/-- Counterexample to C8 as stated: when the temp-file write fails, play
aborts (no panel created, disk unchanged) and the error propagates, but
the session state does retain a reference to the nonexistent temp
resource: the fresh path was assigned to tempFile before the write. -/
theorem c8_counterexample :
    (HybridAudioPlayer.play HybridAudioPlayer.initialPlayer [] (some 0)
      "p" false).success = false ∧
    (HybridAudioPlayer.play HybridAudioPlayer.initialPlayer [] (some 0)
      "p" false).state.tempFile = some "p" ∧
    (HybridAudioPlayer.play HybridAudioPlayer.initialPlayer [] (some 0)
      "p" false).fs = [] := by
  decide

open HybridAudioPlayer in
/-- C8 amended: if writing the audio bytes to the fresh temp file fails,
play aborts before the panel or its HTML are touched (so the session
never reaches the Loading state) and the exception propagates to the
caller, which surfaces it; no file is left on disk under the fresh name,
but the session state retains the just-assigned fresh path in tempFile
(a reference to a nonexistent file, guarded by the existence check in
every later cleanup). -/
theorem c8_write_failure_amended (s : PlayerState) (fs : FileSys)
    (cb : Option Nat) (p : String) (hfresh : p ∉ fs) :
    (HybridAudioPlayer.play s fs cb p false).success = false ∧
    (HybridAudioPlayer.play s fs cb p false).state.panel = s.panel ∧
    (HybridAudioPlayer.play s fs cb p false).state.tempFile = some p ∧
    p ∉ (HybridAudioPlayer.play s fs cb p false).fs := by
  have hcases : (HybridAudioPlayer.play s fs cb p false).fs = fs ∨
      ∃ f, (HybridAudioPlayer.play s fs cb p false).fs = fs.erase f := by
    cases hs : s.tempFile with
    | none => exact Or.inl (by simp [HybridAudioPlayer.play, cleanup, hs])
    | some f =>
      by_cases hmem : f ∈ fs
      · exact Or.inr ⟨f, by simp [HybridAudioPlayer.play, cleanup, hs, hmem]⟩
      · exact Or.inl (by simp [HybridAudioPlayer.play, cleanup, hs, hmem])
  refine ⟨?_, ?_, ?_, ?_⟩
  · cases hs : s.tempFile with
    | none => simp [HybridAudioPlayer.play, cleanup, hs]
    | some f =>
      by_cases hmem : f ∈ fs <;> simp [HybridAudioPlayer.play, cleanup, hs, hmem]
  · cases hs : s.tempFile with
    | none => simp [HybridAudioPlayer.play, cleanup, hs]
    | some f =>
      by_cases hmem : f ∈ fs <;> simp [HybridAudioPlayer.play, cleanup, hs, hmem]
  · cases hs : s.tempFile with
    | none => simp [HybridAudioPlayer.play, cleanup, hs]
    | some f =>
      by_cases hmem : f ∈ fs <;> simp [HybridAudioPlayer.play, cleanup, hs, hmem]
  · rcases hcases with h | ⟨f, h⟩
    · rw [h]; exact hfresh
    · rw [h]; exact fun hmem2 => hfresh (List.mem_of_mem_erase hmem2)

open HybridAudioPlayer in
/-- Witness for C8: a concrete failed write leaves no file on disk yet
leaves the fresh path referenced by the session state. -/
theorem c8_witness :
    (HybridAudioPlayer.play ⟨true, some 1, some "old"⟩ ["old"] (some 2)
      "new" false).success = false ∧
    (HybridAudioPlayer.play ⟨true, some 1, some "old"⟩ ["old"] (some 2)
      "new" false).state.tempFile = some "new" :=
  ⟨(c8_write_failure_amended ⟨true, some 1, some "old"⟩ ["old"] (some 2)
      "new" (by decide)).1,
   (c8_write_failure_amended ⟨true, some 1, some "old"⟩ ["old"] (some 2)
      "new" (by decide)).2.2.1⟩

/-- The JavaScript round of a nonpositive rational is nonpositive. -/
theorem jsRound_nonpos {q : ℚ} (h : q ≤ 0) : jsRound q ≤ 0 := by
  have h1 : jsRound q < 1 := by
    rw [jsRound]
    exact Int.floor_lt.mpr (by push_cast; linarith)
  omega

/-- The JavaScript round of a nonnegative rational is nonnegative. -/
theorem jsRound_nonneg {q : ℚ} (h : 0 ≤ q) : 0 ≤ jsRound q := by
  rw [jsRound]
  exact Int.le_floor.mpr (by push_cast; linarith)

/-- C9: each backend speed transform is monotone (non-decreasing) on the
normalised scale 0.25 - 4.0, and normalised speed 1.0 maps to each
backend's native no-change value: SAPI rate 0, 175 words per minute, and
the Azure prosody string of plus zero percent. -/
theorem c9_speed_transforms :
    (∀ s t : ℚ, 1 / 4 ≤ s → s ≤ t → t ≤ 4 →
      LocalTTSProvider.speedToRate s ≤ LocalTTSProvider.speedToRate t ∧
      LocalTTSProvider.wpmRate s ≤ LocalTTSProvider.wpmRate t ∧
      AzureProvider.percentOf s ≤ AzureProvider.percentOf t) ∧
    LocalTTSProvider.speedToRate 1 = 0 ∧
    LocalTTSProvider.wpmRate 1 = 175 ∧
    AzureProvider.speedToRate 1 = "+0%" := by
  refine ⟨?_, ?_, ?_, ?_⟩
  · intro s t hlo hst hhi
    refine ⟨?_, jsRound_mono (by linarith), jsRound_mono (by linarith)⟩
    unfold LocalTTSProvider.speedToRate
    by_cases hs1 : s ≤ 1 <;> by_cases ht1 : t ≤ 1
    · rw [if_pos hs1, if_pos ht1]
      exact jsRound_mono (by linarith)
    · rw [if_pos hs1, if_neg ht1]
      have hle : jsRound ((s - 1) * 10) ≤ 0 := jsRound_nonpos (by nlinarith)
      have hge : (0 : ℤ) ≤ jsRound ((t - 1) * (333 / 100)) :=
        jsRound_nonneg (by nlinarith)
      omega
    · exact absurd (le_trans hst ht1) hs1
    · rw [if_neg hs1, if_neg ht1]
      exact jsRound_mono (by nlinarith)
  · show (if (1 : ℚ) ≤ 1 then jsRound (((1 : ℚ) - 1) * 10)
      else jsRound (((1 : ℚ) - 1) * (333 / 100))) = 0
    rw [if_pos le_rfl]
    norm_num [jsRound]
  · show jsRound (175 * 1) = 175
    norm_num [jsRound]
  · show AzureProvider.speedToRate 1 = "+0%"
    have h0 : AzureProvider.percentOf 1 = 0 := by
      unfold AzureProvider.percentOf
      norm_num [jsRound]
    unfold AzureProvider.speedToRate
    rw [h0]
    decide

/-- Witness for C9: halving the speed does not increase any backend rate,
checked at the concrete pair one half and two. -/
theorem c9_witness :
    LocalTTSProvider.speedToRate (1 / 2) ≤ LocalTTSProvider.speedToRate 2 ∧
    LocalTTSProvider.wpmRate (1 / 2) ≤ LocalTTSProvider.wpmRate 2 ∧
    AzureProvider.percentOf (1 / 2) ≤ AzureProvider.percentOf 2 :=
  c9_speed_transforms.1 (1 / 2) 2 (by norm_num) (by norm_num) (by norm_num)
